import Mathlib

/-!
Shallow embedding of the yabai-menu state-synchronization core (src/main.rs).

The embedding translates the Rust source directly:
* `YabaiSpaceLayout` is the two-variant layout enum with its serde derive
  (rename_all = "lowercase", which matches variant names case-sensitively)
  and its `ToString` impl.
* `SpaceResponse` is the parsed query response; `RawSpaceResponse` is the
  wire-level JSON object the serde derive consumes (every field may be
  absent, the layout field is a raw string).
* `YabaiState.set_layout` is modelled as a pure function from the new mode
  and the guarded cell to a `SetResult`, which records the sequence of
  observable events (lock acquisition, store, condvar notify_all, the
  dispatch_main enqueue of the icon update, guard drop) exactly in the
  order the Rust statements execute them: the MutexGuard is dropped at the
  end of the function body, after notify_all and dispatch_main. The Rust
  function returns unit, recorded in the `ret` field.
* `Yabai.change_space_layout` runs the external process and unwraps the
  result; the external outcome is a Bool parameter and the unwrap panic is
  the `Except.error` case.
* `YabaiMenu.toggle_layout` reads the stored mode, computes the opposite
  (`toggle_request` names its match expression), invokes the apply call,
  and on success calls `set_layout`; an apply failure panics before
  `set_layout` runs, carrying the untouched state in the error.
* `YabaiState.shared` initializes the once-cell with the derived default
  (Float) and primes it with one `update` (query and set) before the value
  is published; `shared_init` is that initialization as a function of the
  query result.
-/

inductive YabaiSpaceLayout where
  | Float
  | Bsp
deriving DecidableEq, Repr, Fintype

/-- The derived `Default` of the enum: the `#[default]` variant is `Float`. -/
def YabaiSpaceLayout.default : YabaiSpaceLayout := .Float

/-- The `ToString` impl: canonical lowercase names. -/
def YabaiSpaceLayout.to_string : YabaiSpaceLayout → String
  | .Float => "float"
  | .Bsp => "bsp"

/-- The serde `Deserialize` derive with `rename_all = "lowercase"`: the wire
string is matched against the renamed variant names exactly (serde derives
are case-sensitive); anything else is an unknown-variant error. -/
def YabaiSpaceLayout.deserialize (s : String) : Except String YabaiSpaceLayout :=
  if s = "float" then .ok .Float
  else if s = "bsp" then .ok .Bsp
  else .error "unknown variant"

/-- The parsed `yabai -m query --spaces --space` response. -/
structure SpaceResponse where
  id : Nat
  uuid : String
  index : Nat
  type : YabaiSpaceLayout
  label : String
  display : Nat
deriving DecidableEq, Repr

/-- The wire-level JSON object the derive consumes: each field may be
missing, and the layout field arrives as a raw string. -/
structure RawSpaceResponse where
  id : Option Nat
  uuid : Option String
  index : Option Nat
  type : Option String
  label : Option String
  display : Option Nat
deriving Repr

/-- The serde `Deserialize` derive for `SpaceResponse`: every field is
required (none carries a serde default attribute), and the layout field is
deserialized through `YabaiSpaceLayout.deserialize`; a missing field or an
unrecognized layout string is a parse error, never a default value. -/
def SpaceResponse.deserialize (j : RawSpaceResponse) : Except String SpaceResponse :=
  match j.id, j.uuid, j.index, j.type, j.label, j.display with
  | some id, some uuid, some index, some ty, some label, some display =>
    match YabaiSpaceLayout.deserialize ty with
    | .ok t => .ok ⟨id, uuid, index, t, label, display⟩
    | .error e => .error e
  | _, _, _, _, _, _ => .error "missing field"

/-- `Yabai::get_layout_for_current_space`: reads the query output and
unwraps the serde parse; the unwrap panic on bad output is the error case. -/
def Yabai.get_layout_for_current_space (output : RawSpaceResponse) :
    Except String SpaceResponse :=
  SpaceResponse.deserialize output

/-- The argument vector of the external apply invocation,
`cmd!(yabai, "-m", "space", "--layout", layout.to_string())`. -/
def Yabai.change_space_layout_args (layout : YabaiSpaceLayout) : List String :=
  ["-m", "space", "--layout", layout.to_string]

/-- `Yabai::change_space_layout`: runs the external process and calls
`.unwrap()` on the result, so a failed run is a panic (the error case), not
a caught error. The run outcome is the Bool parameter. -/
def Yabai.change_space_layout (run_ok : Bool) (layout : YabaiSpaceLayout) :
    Except String Unit :=
  if run_ok then .ok () else .error "yabai -m space --layout exited non-zero"

/-- The cell behind the mutex: `struct YabaiStateInner { layout }`. -/
structure YabaiStateInner where
  layout : YabaiSpaceLayout
deriving DecidableEq, Repr

/-- The derived `Default`: layout defaults to `Float`. -/
def YabaiStateInner.default : YabaiStateInner := ⟨.Float⟩

/-- Observable events of one `set_layout` call, in execution order. -/
inductive SetEvent where
  | lock
  | store (m : YabaiSpaceLayout)
  | notifyAll
  | dispatchMain
  | unlock
deriving DecidableEq, Repr

/-- Result of one `set_layout` call: the event trace, the cell contents at
return, and the Rust return value (unit — the function returns nothing). -/
structure SetResult where
  trace : List SetEvent
  state : YabaiStateInner
  ret : Unit
deriving DecidableEq, Repr

/-- `YabaiState::set_layout`, statement by statement: acquire the lock; if
the new layout differs from the stored one, store it, notify_all the
condvar, and dispatch_main the UpdateIcon message — all before the
MutexGuard is dropped at the end of the function; otherwise do nothing.
The guard drop (unlock) is always the last event. Returns unit. -/
def YabaiState.set_layout (new_layout : YabaiSpaceLayout) (s : YabaiStateInner) :
    SetResult :=
  if new_layout ≠ s.layout then
    ⟨[.lock, .store new_layout, .notifyAll, .dispatchMain, .unlock], ⟨new_layout⟩, ()⟩
  else
    ⟨[.lock, .unlock], s, ()⟩

/-- Number of change notifications delivered to the consumer path by one
`set_layout` call: the dispatch_main enqueues of the UpdateIcon message. -/
def notifCount (r : SetResult) : Nat :=
  r.trace.count SetEvent.dispatchMain

/-- `YabaiState::update`: query the current space and feed the layout field
into `set_layout` (given the parsed query response). -/
def YabaiState.update (resp : SpaceResponse) (s : YabaiStateInner) : SetResult :=
  YabaiState.set_layout resp.type s

/-- `YabaiState::shared` initialization: the once-cell constructs the state
with the derived default (layout Float) and immediately runs one `update`
before publishing the value; this is that initialization as a function of
the primed query response. -/
def YabaiState.shared_init (resp : SpaceResponse) : SetResult :=
  YabaiState.update resp YabaiStateInner.default

/-- The match inside `YabaiMenu::toggle_layout` computing the requested
mode from the stored one. -/
def YabaiMenu.toggle_request : YabaiSpaceLayout → YabaiSpaceLayout
  | .Float => .Bsp
  | .Bsp => .Float

/-- `YabaiMenu::toggle_layout`: read the stored layout under the lock,
compute the opposite, call `change_space_layout`, then `set_layout`. The
apply call unwraps, so when the external run fails the panic propagates
(error case, carrying the panic message and the untouched state) and
`set_layout` is never reached. -/
def YabaiMenu.toggle_layout (run_ok : Bool) (s : YabaiStateInner) :
    Except (String × YabaiStateInner) SetResult :=
  let layout := YabaiMenu.toggle_request s.layout
  match Yabai.change_space_layout run_ok layout with
  | .error e => .error (e, s)
  | .ok _ => .ok (YabaiState.set_layout layout s)

/-- Claim C1: for distinct modes m1 and m2 with stored value m2, calling
set_layout with m1 and then with m1 again fires exactly one change
notification — one on the first call, none on the second — and in general
a notification fires iff the new mode differs from the stored value. -/
theorem set_layout_dedup (m1 m2 : YabaiSpaceLayout) (h : m1 ≠ m2) :
    notifCount (YabaiState.set_layout m1 ⟨m2⟩) = 1 ∧
    notifCount (YabaiState.set_layout m1 (YabaiState.set_layout m1 ⟨m2⟩).state) = 0 ∧
    ∀ m s : YabaiSpaceLayout,
      (notifCount (YabaiState.set_layout m ⟨s⟩) = 1 ↔ m ≠ s) := by
  revert h
  cases m1 <;> cases m2 <;> decide

theorem set_layout_dedup_witness :
    (YabaiSpaceLayout.Bsp ≠ YabaiSpaceLayout.Float) ∧
    (notifCount (YabaiState.set_layout .Bsp ⟨.Float⟩) = 1 ∧
     notifCount
       (YabaiState.set_layout .Bsp (YabaiState.set_layout .Bsp ⟨.Float⟩).state) = 0 ∧
     ∀ m s : YabaiSpaceLayout,
       (notifCount (YabaiState.set_layout m ⟨s⟩) = 1 ↔ m ≠ s)) :=
  ⟨by decide, set_layout_dedup .Bsp .Float (by decide)⟩

/-- Claim C2, evaluated at the failing input (stored mode Bsp, external
apply run fails): toggle_layout propagates the unwrap panic instead of
catching it — the call ends in the error case, i.e. a process crash,
contrary to the claim that the failure is caught and surfaced; the stored
state is indeed left untouched in that error. -/
theorem toggle_layout_panics_on_apply_failure :
    YabaiMenu.toggle_layout false ⟨.Bsp⟩ =
      Except.error ("yabai -m space --layout exited non-zero", ⟨.Bsp⟩) := by
  rfl

/-- Claim C3: for every starting state, if the apply invocation fails
during a toggle, the call ends (in the panic) with the stored layout equal
to the value before the call: set_layout is never invoked on the failure
path, so no change notification fires and the state is unchanged. -/
theorem toggle_layout_failure_preserves_state (s : YabaiStateInner) :
    YabaiMenu.toggle_layout false s =
      Except.error ("yabai -m space --layout exited non-zero", s) := by
  rfl

/-- Claim C4: toggle computes and requests exactly the opposite mode: from
Float it requests Bsp, from Bsp it requests Float, and it never requests
the mode currently stored. -/
theorem toggle_request_opposite :
    YabaiMenu.toggle_request .Float = .Bsp ∧
    YabaiMenu.toggle_request .Bsp = .Float ∧
    ∀ m, YabaiMenu.toggle_request m ≠ m := by
  decide

/-- Claim C5 is false as stated: set_layout returns unit, not a boolean — a
call that changes the state and a no-op call return the very same value, so
the return value cannot report whether a change occurred. -/
theorem set_layout_ret_not_bool :
    (YabaiState.set_layout .Bsp ⟨.Float⟩).ret =
      (YabaiState.set_layout .Float ⟨.Float⟩).ret ∧
    (YabaiState.set_layout .Bsp ⟨.Float⟩).state ≠ (⟨.Float⟩ : YabaiStateInner) ∧
    (YabaiState.set_layout .Float ⟨.Float⟩).state = (⟨.Float⟩ : YabaiStateInner) := by
  decide

/-- Claim C5 amended: set_layout returns unit (no change report); it stores
the new mode and fires exactly one change notification iff the new mode
differs from the stored one, and is a no-op firing none when they are
equal; in both cases the stored layout afterwards equals the argument. -/
theorem set_layout_change_behavior (m s : YabaiSpaceLayout) :
    (YabaiState.set_layout m ⟨s⟩).ret = () ∧
    (SetEvent.store m ∈ (YabaiState.set_layout m ⟨s⟩).trace ↔ m ≠ s) ∧
    (notifCount (YabaiState.set_layout m ⟨s⟩) = 1 ↔ m ≠ s) ∧
    (YabaiState.set_layout m ⟨s⟩).state.layout = m := by
  cases m <;> cases s <;> decide

/-- Claim C6 is false as stated: the serde derive with rename_all lowercase
matches the wire string case-sensitively, so the casing BSP of a recognized
mode name is a parse error rather than being accepted and normalized. -/
theorem deserialize_rejects_uppercase :
    YabaiSpaceLayout.deserialize "BSP" = Except.error "unknown variant" := by
  rfl

/-- Claim C6 amended: wire parsing of the layout-mode string is
case-sensitive: exactly the lowercase names float and bsp are accepted and
mapped to their variants, and every other string — other casings of the
mode names included — is a parse failure. -/
theorem deserialize_exact_lowercase (s : String) (h : s ≠ "float" ∧ s ≠ "bsp") :
    YabaiSpaceLayout.deserialize "float" = Except.ok .Float ∧
    YabaiSpaceLayout.deserialize "bsp" = Except.ok .Bsp ∧
    YabaiSpaceLayout.deserialize s = Except.error "unknown variant" := by
  obtain ⟨h1, h2⟩ := h
  refine ⟨rfl, rfl, ?_⟩
  simp [YabaiSpaceLayout.deserialize, h1, h2]

theorem deserialize_exact_lowercase_witness :
    (("Bsp" : String) ≠ "float" ∧ ("Bsp" : String) ≠ "bsp") ∧
    (YabaiSpaceLayout.deserialize "float" = Except.ok .Float ∧
     YabaiSpaceLayout.deserialize "bsp" = Except.ok .Bsp ∧
     YabaiSpaceLayout.deserialize "Bsp" = Except.error "unknown variant") :=
  ⟨by decide, deserialize_exact_lowercase "Bsp" (by decide)⟩

/-- Claim C7: parsing a well-formed query response whose type field is bsp
yields the Bsp mode; a response whose type field holds an unrecognized
string, or lacks the type field, is a parse failure — never a silent
fall-back to the default mode. -/
theorem space_response_parse (id index display : Nat) (uuid label ty : String)
    (h : ty ≠ "float" ∧ ty ≠ "bsp") :
    Yabai.get_layout_for_current_space
        ⟨some id, some uuid, some index, some "bsp", some label, some display⟩ =
      Except.ok ⟨id, uuid, index, .Bsp, label, display⟩ ∧
    Yabai.get_layout_for_current_space
        ⟨some id, some uuid, some index, some ty, some label, some display⟩ =
      Except.error "unknown variant" ∧
    Yabai.get_layout_for_current_space
        ⟨some id, some uuid, some index, none, some label, some display⟩ =
      Except.error "missing field" := by
  obtain ⟨h1, h2⟩ := h
  refine ⟨rfl, ?_, rfl⟩
  simp [Yabai.get_layout_for_current_space, SpaceResponse.deserialize,
    YabaiSpaceLayout.deserialize, h1, h2]

theorem space_response_parse_witness :
    (("stack" : String) ≠ "float" ∧ ("stack" : String) ≠ "bsp") ∧
    (Yabai.get_layout_for_current_space
        ⟨some 1, some "u", some 2, some "bsp", some "l", some 3⟩ =
      Except.ok ⟨1, "u", 2, .Bsp, "l", 3⟩ ∧
     Yabai.get_layout_for_current_space
        ⟨some 1, some "u", some 2, some "stack", some "l", some 3⟩ =
      Except.error "unknown variant" ∧
     Yabai.get_layout_for_current_space
        ⟨some 1, some "u", some 2, none, some "l", some 3⟩ =
      Except.error "missing field") :=
  ⟨by decide, space_response_parse 1 2 3 "u" "l" "stack" (by decide)⟩

/-- Claim C8 is false as stated: on a changing call both the condvar notify
and the dispatch of the icon-update message occur before the mutex guard is
dropped — the notification fires while the state lock is still held, not
after release. -/
theorem set_layout_notify_before_unlock :
    ((YabaiState.set_layout .Bsp ⟨.Float⟩).trace.indexOf SetEvent.notifyAll <
      (YabaiState.set_layout .Bsp ⟨.Float⟩).trace.indexOf SetEvent.unlock) ∧
    ((YabaiState.set_layout .Bsp ⟨.Float⟩).trace.indexOf SetEvent.dispatchMain <
      (YabaiState.set_layout .Bsp ⟨.Float⟩).trace.indexOf SetEvent.unlock) := by
  decide

/-- Claim C8 amended: when set_layout stores a new value its steps run in
the order store, condvar notify_all, asynchronous dispatch of the
icon-update message, and only then the lock release when the guard drops at
the end of the function — the notification fires while the lock is still
held; the dispatch is an asynchronous enqueue, so the writer does not block
on rendering. -/
theorem set_layout_event_order (m : YabaiSpaceLayout) (s : YabaiStateInner)
    (h : m ≠ s.layout) :
    (YabaiState.set_layout m s).trace =
      [SetEvent.lock, SetEvent.store m, SetEvent.notifyAll,
       SetEvent.dispatchMain, SetEvent.unlock] := by
  simp [YabaiState.set_layout, h]

theorem set_layout_event_order_witness :
    (YabaiSpaceLayout.Bsp ≠ (⟨.Float⟩ : YabaiStateInner).layout) ∧
    (YabaiState.set_layout .Bsp ⟨.Float⟩).trace =
      [SetEvent.lock, SetEvent.store .Bsp, SetEvent.notifyAll,
       SetEvent.dispatchMain, SetEvent.unlock] :=
  ⟨by decide, set_layout_event_order .Bsp ⟨.Float⟩ (by decide)⟩

/-- Claim C9: the shared state is constructed holding the default mode
Float, and the initialization primes it with one query-and-set before the
value is published, so for every query result the first stored layout any
reader observes equals the primed (queried) layout. -/
theorem shared_init_primed (resp : SpaceResponse) :
    YabaiStateInner.default.layout = .Float ∧
    (YabaiState.shared_init resp).state.layout = resp.type := by
  refine ⟨rfl, ?_⟩
  cases resp with
  | mk id uuid index ty label display => cases ty <;> rfl

/-- Claim C10: to_string gives the canonical lowercase names, float for
Float and bsp for Bsp; deserializing that canonical name yields the same
mode again; and exactly that string is the final argument of the external
apply invocation. -/
theorem layout_string_roundtrip :
    YabaiSpaceLayout.to_string .Float = "float" ∧
    YabaiSpaceLayout.to_string .Bsp = "bsp" ∧
    (∀ m, YabaiSpaceLayout.deserialize (YabaiSpaceLayout.to_string m) = Except.ok m) ∧
    (∀ m, Yabai.change_space_layout_args m =
      ["-m", "space", "--layout", YabaiSpaceLayout.to_string m]) := by
  refine ⟨rfl, rfl, ?_, ?_⟩ <;> intro m <;> cases m <;> rfl
